import Mathlib

/-!
Verification of the Qualifi Level 4 evaluator engine (`src/app.py`).

The source file contains two concatenated application snapshots:
snapshot A (`version="4.0.0"`, lines 1-293) and snapshot B
(`version="3.0.0"`, lines 293-557).  Snapshot B carries the numeric
scoring pipeline (`GRADE_BANDS`, `calculate_grade`,
`generate_fallback_evaluation`, the weighted-score normalisation and the
`/api/evaluate` handler); snapshot A carries the learning-outcome style
evaluation and its own fallback.  Both are embedded below; names of
snapshot A carry a `_v4` suffix.

Machine reals (Python floats) are modelled as `ℚ`: every numeric literal
in the relevant code (0.30, 0.25, 0.20, 10.5, 8.75, 7.6, ...) is exactly
representable, and the code performs only sums, products by these
literals and order comparisons, all of which are exact on these values.

The external library boundary (`model.generate_content`, `json.loads`)
is modelled as data passed into the embedded functions: a `RemoteCall`
value is the outcome of the Gemini call (either an exception or a
response text) and a `loads : String → Option ParsedEval` function is the
behaviour of `json.loads` on the extracted match (`none` models a raised
`json.JSONDecodeError`; a `none` field inside `ParsedEval` models a
missing dictionary key, whose access raises `KeyError`).
-/

/-- Splitting a character list on runs of whitespace, accumulating the
current word in reverse; empty pieces are discarded, as Python's
`str.split()` with no argument does. -/
def words_aux : List Char → List Char → List (List Char)
  | [], [] => []
  | [], acc => [acc.reverse]
  | c :: cs, acc =>
    if c.isWhitespace then
      match acc with
      | [] => words_aux cs []
      | _ => acc.reverse :: words_aux cs []
    else words_aux cs (c :: acc)

/-- Python `len(text.split())`: `str.split()` with no argument splits on
runs of whitespace and discards empty pieces. -/
def word_count (s : String) : Nat := (words_aux s.data []).length

/-- Python `str.strip()`: drop leading and trailing whitespace. -/
def strip_chars (cs : List Char) : List Char :=
  ((cs.dropWhile Char.isWhitespace).reverse.dropWhile Char.isWhitespace).reverse

/-- Python `str.strip()` at the string level. -/
def py_strip (s : String) : String := String.mk (strip_chars s.data)

/-- One entry of `GRADE_BANDS` (src/app.py lines 365-370). -/
structure Band where
  name : String
  min : ℚ
  max : ℚ
deriving DecidableEq

/-- `GRADE_BANDS` from src/app.py lines 365-370. -/
def GRADE_BANDS : List Band :=
  [⟨"Distinction", 70, 100⟩, ⟨"Merit", 60, 69⟩, ⟨"Pass", 40, 59⟩, ⟨"FAIL", 0, 39⟩]

/-- `calculate_grade` (src/app.py lines 455-459): the first band whose
inclusive range contains `total_score`, else `"Ungraded"`. -/
def calculate_grade (total_score : ℚ) : String :=
  match GRADE_BANDS.find? (fun b => decide (b.min ≤ total_score ∧ total_score ≤ b.max)) with
  | some b => b.name
  | none => "Ungraded"

/-- One criterion entry of a snapshot-B evaluation dictionary.  `band`
and `feedback` are `Option` because on the remote path they are passed
through from the parsed JSON, where the keys may be absent (the code
never reads them inside `evaluate_with_gemini`). -/
structure CritEval where
  score : ℚ
  band : Option String
  weighted : ℚ
  feedback : Option String
deriving DecidableEq

/-- A snapshot-B evaluation dictionary: the four fixed criterion keys. -/
structure Evaluation where
  Content : CritEval
  Theory : CritEval
  Understanding : CritEval
  Presentation : CritEval
deriving DecidableEq

/-- `generate_fallback_evaluation` (src/app.py lines 437-453, snapshot B). -/
def generate_fallback_evaluation (assignment_text : String) : Evaluation :=
  if word_count assignment_text < 100 then
    { Content := ⟨35, some "30-39", 21/2, some "Insufficient content provided."⟩
      Theory := ⟨32, some "30-39", 8, some "Limited theoretical application."⟩
      Understanding := ⟨35, some "30-39", 35/4, some "Basic understanding demonstrated."⟩
      Presentation := ⟨38, some "30-39", 38/5, some "Brief presentation."⟩ }
  else
    { Content := ⟨62, some "60-69", 93/5, some "Adequate coverage of content areas."⟩
      Theory := ⟨58, some "50-59", 29/2, some "Adequate theoretical framework."⟩
      Understanding := ⟨64, some "60-69", 16, some "Sound understanding of concepts."⟩
      Presentation := ⟨55, some "50-59", 11, some "Orderly presentation."⟩ }

/-- One assessment-criterion row of a snapshot-A evaluation. -/
structure CriterionV4 where
  criterion : String
  achieved : String
  evidence : String
deriving DecidableEq

/-- One learning-outcome block of a snapshot-A evaluation. -/
structure LearningOutcomeV4 where
  outcome : String
  criteria : List CriterionV4
deriving DecidableEq

/-- A snapshot-A evaluation dictionary. -/
structure EvaluationV4 where
  learning_outcomes : List LearningOutcomeV4
  overall_feedback : String
  overall_grade : String
deriving DecidableEq

/-- `generate_fallback_evaluation` (src/app.py lines 123-140, snapshot A). -/
def generate_fallback_evaluation_v4 : EvaluationV4 :=
  { learning_outcomes :=
      [⟨"Demonstrate understanding of core concepts",
        [⟨"Explain fundamental principles", "N",
          "Unable to evaluate - Gemini AI unavailable. Manual assessment required."⟩]⟩]
    overall_feedback := "Automated evaluation unavailable. Please review manually."
    overall_grade := "Pending Review" }

/-- Index of the first element satisfying `p`, or `none`. -/
def first_idx (p : Char → Bool) : List Char → Option Nat
  | [] => none
  | c :: cs => if p c then some 0 else (first_idx p cs).map (· + 1)

/-- Index of the last element satisfying `p`, or `none`. -/
def last_idx (p : Char → Bool) (cs : List Char) : Option Nat :=
  (first_idx p cs.reverse).map (fun k => cs.length - 1 - k)

/-- Core of snapshot A's `re.search(r'\{.*\}', result_text, re.DOTALL)`
(src/app.py line 111): with `re.DOTALL` and a greedy `.*`, the leftmost
match runs from the first open brace to the last close brace of the
whole text, provided the close brace comes strictly later. -/
def extract_core (cs : List Char) : Option (List Char) :=
  match first_idx (fun c => c == '{') cs, last_idx (fun c => c == '}') cs with
  | some i, some j => if i < j then some ((cs.drop i).take (j - i + 1)) else none
  | _, _ => none

/-- Snapshot A's JSON extraction: `json_match.group()` as a string. -/
def extractJson (s : String) : Option String :=
  (extract_core s.data).map (fun cs => String.mk cs)

/-- Index of the first position where the two-character pattern `a b`
occurs, or `none`. -/
def pair_idx (a b : Char) : List Char → Option Nat
  | [] => none
  | [_] => none
  | c :: d :: rest =>
    if c = a ∧ d = b then some 0 else (pair_idx a b (d :: rest)).map (· + 1)

/-- Index of the last position where the pattern `a b` occurs, computed
through the reversed list (the pair reads `b a` there). -/
def last_pair_idx (a b : Char) (cs : List Char) : Option Nat :=
  (pair_idx b a cs.reverse).map (fun k => cs.length - 2 - k)

/-- Core of snapshot B's `re.search(r'\{{.*\}}', result_text, re.DOTALL)`
(src/app.py line 421).  In that raw (non-f) string the pattern is the
escaped brace `\{` followed by a literal `{`, then `.*`, then `\}` `}`:
it matches a literal double open brace, anything, and a literal double
close brace.  Leftmost-greedy: from the first double open brace to the
last double close brace starting at least two characters later. -/
def extract_core_v3 (cs : List Char) : Option (List Char) :=
  match pair_idx '{' '{' cs, last_pair_idx '}' '}' cs with
  | some i, some j => if i + 2 ≤ j then some ((cs.drop i).take (j + 2 - i)) else none
  | _, _ => none

/-- Snapshot B's JSON extraction: `json_match.group()` as a string. -/
def extractJsonV3 (s : String) : Option String :=
  (extract_core_v3 s.data).map (fun cs => String.mk cs)

/-- Outcome of `model.generate_content(prompt)` at the library boundary:
either a raised exception (timeout, network, authentication, SDK error)
or a returned response whose `.text` is carried. -/
inductive RemoteCall where
  | raised (msg : String)
  | returned (text : String)
deriving DecidableEq

/-- The parsed form of one criterion object of the remote JSON.  `none`
fields model absent dictionary keys. -/
structure ParsedCrit where
  score : Option ℚ
  band : Option String
  feedback : Option String
deriving DecidableEq

/-- The parsed form of the remote JSON object.  `none` fields model
absent criterion keys (`evaluation["Content"]` raising `KeyError`). -/
structure ParsedEval where
  Content : Option ParsedCrit
  Theory : Option ParsedCrit
  Understanding : Option ParsedCrit
  Presentation : Option ParsedCrit
deriving DecidableEq

/-- The `try:` block of snapshot B's `evaluate_with_gemini`
(src/app.py lines 390-431).  `.error` is a raised exception that the
surrounding `except Exception` will catch; `.ok` is a normal return.
Control flow, in source order: missing API key returns the fallback;
the remote call may raise; the response text is stripped; the
double-brace regex is searched; no match returns the fallback; a match
is handed to `json.loads`, which may raise; the four
`evaluation[k]["weighted"] = evaluation[k]["score"] * w` assignments
raise `KeyError` when a criterion or its score key is absent, and
otherwise the parsed dictionary, extended with the weighted values, is
returned. -/
def tryBody (loads : String → Option ParsedEval) (apiKey : String)
    (remote : RemoteCall) (assignment_text : String) : Except String Evaluation :=
  if apiKey = "" then .ok (generate_fallback_evaluation assignment_text)
  else
    match remote with
    | .raised msg => .error msg
    | .returned rtext =>
      match extractJsonV3 (py_strip rtext) with
      | none => .ok (generate_fallback_evaluation assignment_text)
      | some g =>
        match loads g with
        | none => .error "json.loads raised JSONDecodeError"
        | some p =>
          match p.Content, p.Theory, p.Understanding, p.Presentation with
          | some c, some t, some u, some pr =>
            match c.score, t.score, u.score, pr.score with
            | some cs, some ts, some us, some ps =>
              .ok { Content := ⟨cs, c.band, cs * (3/10), c.feedback⟩
                    Theory := ⟨ts, t.band, ts * (1/4), t.feedback⟩
                    Understanding := ⟨us, u.band, us * (1/4), u.feedback⟩
                    Presentation := ⟨ps, pr.band, ps * (1/5), pr.feedback⟩ }
            | _, _, _, _ => .error "KeyError: score"
          | _, _, _, _ => .error "KeyError: criterion"

/-- Snapshot B's `evaluate_with_gemini` (src/app.py lines 389-435): the
`try:` body wrapped in `except Exception`, which logs and returns the
fallback evaluation.  The result type is `Evaluation`, not an `Except`:
no exception escapes this function. -/
def evaluate_with_gemini (loads : String → Option ParsedEval) (apiKey : String)
    (remote : RemoteCall) (assignment_text : String) : Evaluation :=
  match tryBody loads apiKey remote assignment_text with
  | .ok e => e
  | .error _ => generate_fallback_evaluation assignment_text

/-- The validity guard of the `/api/evaluate` handler (src/app.py lines
520-521): `len(assignment_text.strip()) < 50`.  This is the only
input-validity test the handler performs on the submission text. -/
def empty_or_invalid (assignment_text : String) : Bool :=
  (strip_chars assignment_text.data).length < 50

/-- An `HTTPException(status_code, detail)`. -/
structure HttpError where
  status : Nat
  detail : String
deriving DecidableEq

/-- `str(e)` for a caught `HTTPException`, as interpolated into the
500-error detail by the handler's `except` clause. -/
def str_of_http (status : Nat) (detail : String) : String :=
  toString status ++ ": " ++ detail

/-- The successful JSON response body of `/api/evaluate` (snapshot B),
restricted to the engine fields (identifiers are opaque passthrough and
the PDF path is I/O plumbing outside the engine). -/
structure EvalResponse where
  total_score : ℚ
  grade : String
  evaluation : Evaluation
deriving DecidableEq

/-- Snapshot B's `/api/evaluate` handler body (src/app.py lines
516-543), restricted to the engine: decode is modelled as the given
text.  The guard raises `HTTPException(400, "Assignment text too
short")`; that exception is an `Exception`, so the handler's own
`except Exception as e` catches it and re-raises
`HTTPException(500, str(e))`.  Otherwise the scorer runs, the weighted
values are summed and graded, and the response is assembled.  The
second component records whether the scoring backend was invoked. -/
def evaluate_assignment (loads : String → Option ParsedEval) (apiKey : String)
    (remote : RemoteCall) (assignment_text : String) :
    Except HttpError EvalResponse × Bool :=
  if empty_or_invalid assignment_text then
    (.error ⟨500, str_of_http 400 "Assignment text too short"⟩, false)
  else
    let ev := evaluate_with_gemini loads apiKey remote assignment_text
    let total := ev.Content.weighted + ev.Theory.weighted +
      ev.Understanding.weighted + ev.Presentation.weighted
    (.ok ⟨total, calculate_grade total, ev⟩, true)

deriving instance DecidableEq for Except

/-- A required key is absent from the parsed remote JSON: one of the four
criterion dictionaries is missing, or one of them lacks its `score` key.
Either access raises `KeyError` in the weighted-normalisation lines
(src/app.py lines 425-428). -/
def missing_key (p : ParsedEval) : Prop :=
  p.Content = none ∨ p.Theory = none ∨ p.Understanding = none ∨ p.Presentation = none ∨
  (∃ c, p.Content = some c ∧ c.score = none) ∨
  (∃ c, p.Theory = some c ∧ c.score = none) ∨
  (∃ c, p.Understanding = some c ∧ c.score = none) ∨
  (∃ c, p.Presentation = some c ∧ c.score = none)

/-- The remote-scoring path fails: the API key is absent, or the Gemini
call raises (timeout, network, SDK error), or no JSON can be extracted
from the response, or `json.loads` raises, or a required key is missing
after parsing. -/
def remoteFailure (loads : String → Option ParsedEval) (apiKey : String)
    (remote : RemoteCall) : Prop :=
  apiKey = "" ∨
  (∃ m, remote = .raised m) ∨
  ∃ r, remote = .returned r ∧
    (extractJsonV3 (py_strip r) = none ∨
     ∃ g, extractJsonV3 (py_strip r) = some g ∧
       (loads g = none ∨ ∃ p, loads g = some p ∧ missing_key p))

/-- Modelled from the spec (section 4.2, claim C7 only — this is the
claim's own wording, for comparison against the source's
`generate_fallback_evaluation`, which is the authority): a content-like
score that "scales linearly with word count up to the criterion's max
(e.g. one point per ~40 words), capped at max_score". -/
def spec_content_score (wc maxScore : Nat) : Nat :=
  min (wc / 40) maxScore

/-! ## Helper lemmas -/

/-- With an empty API key both scorer snapshots return the fallback at
once; the result does not depend on the remote call or the parser. -/
lemma ewg_empty_key (loads : String → Option ParsedEval) (remote : RemoteCall)
    (text : String) :
    evaluate_with_gemini loads "" remote text = generate_fallback_evaluation text := rfl

/-- Closed-form characterisation of `calculate_grade`: the `find?` over
`GRADE_BANDS` tried in declared order. -/
lemma grade_char (q : ℚ) :
    calculate_grade q =
      if 70 ≤ q ∧ q ≤ 100 then "Distinction"
      else if 60 ≤ q ∧ q ≤ 69 then "Merit"
      else if 40 ≤ q ∧ q ≤ 59 then "Pass"
      else if 0 ≤ q ∧ q ≤ 39 then "FAIL"
      else "Ungraded" := by
  unfold calculate_grade GRADE_BANDS
  split_ifs with h1 h2 h3 h4 <;>
    simp [List.find?_cons_of_pos, List.find?_cons_of_neg, h1, *]

/-! ## C1: remote-scorer failure always yields the complete fallback -/

/-- C1 (confirmed): whenever the remote-scoring path fails — absent API
key, a raised exception from the Gemini call, no extractable JSON, a
`json.loads` failure, or a missing required key — `evaluate_with_gemini`
returns the complete fallback evaluation.  Its return type `Evaluation`
(not `Except`) records that no exception escapes to the caller: the
`except Exception` wrapper converts every raised error into the
fallback result. -/
theorem c1_remote_failure_falls_back (loads : String → Option ParsedEval)
    (apiKey : String) (remote : RemoteCall) (text : String)
    (h : remoteFailure loads apiKey remote) :
    evaluate_with_gemini loads apiKey remote text = generate_fallback_evaluation text := by
  by_cases hk : apiKey = ""
  · subst hk; exact ewg_empty_key loads remote text
  · rcases h with h | ⟨m, hm⟩ | ⟨r, hr, hrest⟩
    · exact absurd h hk
    · subst hm
      simp [evaluate_with_gemini, tryBody, hk]
    · subst hr
      rcases hrest with hex | ⟨g, hg, hrest⟩
      · simp [evaluate_with_gemini, tryBody, hk, hex]
      · rcases hrest with hl | ⟨p, hp, hmiss⟩
        · simp [evaluate_with_gemini, tryBody, hk, hg, hl]
        · rcases p with ⟨pc, pt, pu, pp⟩
          rcases hmiss with h1 | h1 | h1 | h1 | ⟨c, hc, hs⟩ | ⟨c, hc, hs⟩ | ⟨c, hc, hs⟩ | ⟨c, hc, hs⟩ <;>
            simp_all [evaluate_with_gemini, tryBody, hk, hg, hp] <;>
            rcases pc with _ | c <;> rcases pt with _ | t <;>
            rcases pu with _ | u <;> rcases pp with _ | pr <;>
            simp_all [evaluate_with_gemini, tryBody, hk, hg, hp]

/-- Witness for C1 at a concrete failing call: a raised timeout with a
configured key falls back. -/
theorem c1_remote_failure_falls_back_witness :
    remoteFailure (fun _ => none) "key" (RemoteCall.raised "timeout") ∧
    evaluate_with_gemini (fun _ => none) "key" (RemoteCall.raised "timeout") "my essay" =
      generate_fallback_evaluation "my essay" :=
  ⟨Or.inr (Or.inl ⟨"timeout", rfl⟩),
   c1_remote_failure_falls_back (fun _ => none) "key" (RemoteCall.raised "timeout") "my essay"
     (Or.inr (Or.inl ⟨"timeout", rfl⟩))⟩

/-! ## C2: grade bands -/

/-- C2 counterexample: 69.5 lies in [0,100] but `calculate_grade`
assigns it no band — the bands are the inclusive integer ranges
[70,100], [60,69], [40,59], [0,39], so every non-integer value in
(69,70), (59,60) or (39,40) falls through to `"Ungraded"`. -/
theorem c2_counterexample_gap_value :
    (0 : ℚ) ≤ 139/2 ∧ (139/2 : ℚ) ≤ 100 ∧
    calculate_grade (139/2) = "Ungraded" ∧
    "Ungraded" ∉ (["Distinction", "Merit", "Pass", "Fail/Refer", "FAIL"] : List String) :=
  ⟨by norm_num, by norm_num, by rw [grade_char]; norm_num, by decide⟩

/-- C2 amended: on [0,100] the calculator assigns `Distinction` on
[70,100], `Merit` on [60,69], `Pass` on [40,59] and `FAIL` (the code's
name for the bottom band) on [0,39], with the boundary values 70, 60
and 40 in the higher band; values in the gaps (69,70), (59,60) and
(39,40) receive no band and are reported `"Ungraded"`. -/
theorem c2_amended_bands_with_gaps (q : ℚ) (h0 : 0 ≤ q) (h100 : q ≤ 100) :
    calculate_grade q =
      if 70 ≤ q then "Distinction"
      else if 69 < q then "Ungraded"
      else if 60 ≤ q then "Merit"
      else if 59 < q then "Ungraded"
      else if 40 ≤ q then "Pass"
      else if 39 < q then "Ungraded"
      else "FAIL" := by
  rw [grade_char]
  split_ifs <;> try rfl
  all_goals simp only [not_and_or, not_le, not_lt] at *
  all_goals try casesm* _ ∨ _
  all_goals linarith

/-- Witness for C2 amended at the boundary value 85. -/
theorem c2_amended_bands_with_gaps_witness : calculate_grade (85 : ℚ) = "Distinction" := by
  have h := c2_amended_bands_with_gaps 85 (by norm_num) (by norm_num)
  rw [h]; norm_num

/-! ## C5: emitted grade names -/

/-- A 60-character, one-word submission: long enough to pass the input
guard, short enough for the low fallback tier. -/
def c5_text : String := String.mk (List.replicate 60 'a')

/-- C5 counterexample: a full pipeline run (no API key, fallback
scoring) emits the grade `"FAIL"`, which is not one of the four names
the claim enumerates (the claim's bottom band is `Fail/Refer`). -/
theorem c5_counterexample_fail_name :
    (evaluate_assignment (fun _ => none) "" (RemoteCall.raised "t") c5_text).1 =
      .ok ⟨697/20, "FAIL", generate_fallback_evaluation c5_text⟩ ∧
    "FAIL" ∉ (["Distinction", "Merit", "Pass", "Fail/Refer"] : List String) := by
  have h1 : empty_or_invalid c5_text = false := by decide
  have h2 : word_count c5_text < 100 := by decide
  constructor
  · simp only [evaluate_assignment, h1, Bool.false_eq_true, if_false]
    have hfb : evaluate_with_gemini (fun _ => none) "" (RemoteCall.raised "t") c5_text =
        generate_fallback_evaluation c5_text := rfl
    rw [hfb]
    simp only [generate_fallback_evaluation, if_pos h2]
    have hsum : (21/2 : ℚ) + 8 + 35/4 + 38/5 = 697/20 := by norm_num
    rw [hsum, grade_char]
    norm_num
  · decide

/-- C5 amended: every grade emitted by `calculate_grade` is one of
`Distinction`, `Merit`, `Pass`, `FAIL` (the code's name, not
`Fail/Refer`) or the out-of-band default `Ungraded`; additionally the
snapshot-A fallback path emits the literal grade `"Pending Review"`. -/
theorem c5_amended_grade_names :
    (∀ q : ℚ, calculate_grade q ∈
      (["Distinction", "Merit", "Pass", "FAIL", "Ungraded"] : List String)) ∧
    generate_fallback_evaluation_v4.overall_grade = "Pending Review" := by
  refine ⟨fun q => ?_, rfl⟩
  rw [grade_char]
  split_ifs <;> simp

/-! ## C3: score bounds hold, but through universal fallback, not clamping -/

/-- Helper: a span found by `pair_idx` really carries the two-character
pattern at the found index. -/
lemma pair_idx_drop_eq (a b : Char) :
    ∀ (cs : List Char) (i : Nat), pair_idx a b cs = some i →
      ∃ rest, cs.drop i = a :: b :: rest := by
  intro cs
  induction cs with
  | nil => intro i h; simp [pair_idx] at h
  | cons c cs ih =>
    cases cs with
    | nil => intro i h; simp [pair_idx] at h
    | cons d rest =>
      intro i h
      rw [pair_idx] at h
      by_cases hcd : c = a ∧ d = b
      · rw [if_pos hcd] at h
        simp only [Option.some.injEq] at h
        subst h
        exact ⟨rest, by simp [hcd.1, hcd.2]⟩
      · rw [if_neg hcd] at h
        cases hpk : pair_idx a b (d :: rest) with
        | none => rw [hpk] at h; simp at h
        | some k =>
          rw [hpk] at h
          simp only [Option.map_some', Option.some.injEq] at h
          subst h
          obtain ⟨r2, hr2⟩ := ih k hpk
          exact ⟨r2, by rw [List.drop_succ_cons, hr2]⟩

/-- Helper: every span the double-brace extraction of snapshot B can
return begins with two open braces. -/
lemma extract_core_v3_take_two (cs g : List Char)
    (h : extract_core_v3 cs = some g) : g.take 2 = ['{', '{'] := by
  unfold extract_core_v3 at h
  cases hp : pair_idx '{' '{' cs with
  | none => rw [hp] at h; simp at h
  | some i =>
    cases hl : last_pair_idx '}' '}' cs with
    | none => rw [hp, hl] at h; simp at h
    | some j =>
      simp only [hp, hl] at h
      by_cases hij : i + 2 ≤ j
      · rw [if_pos hij] at h
        simp only [Option.some.injEq] at h
        subst h
        obtain ⟨rest, hdrop⟩ := pair_idx_drop_eq '{' '{' cs i hp
        rw [List.take_take, Nat.min_eq_left (by omega), hdrop]
        rfl
      · rw [if_neg hij] at h; simp at h

/-- Helper: under the one true property of the standard-library parser
that matters here — `json.loads` raises on every string that begins with
two open braces, because no valid JSON document starts `{{` — snapshot
B's remote scorer returns the fallback for *every* input: its regex only
ever hands `json.loads` spans that begin with two open braces, so the
success path of the `try` block (the weighted-score lines 425-428) is
unreachable. -/
lemma ewg_always_fallback_v3 (loads : String → Option ParsedEval)
    (hloads : ∀ s : String, s.data.take 2 = ['{', '{'] → loads s = none)
    (apiKey : String) (remote : RemoteCall) (text : String) :
    evaluate_with_gemini loads apiKey remote text = generate_fallback_evaluation text := by
  by_cases hk : apiKey = ""
  · subst hk; rfl
  · cases remote with
    | raised m => simp [evaluate_with_gemini, tryBody, hk]
    | returned r =>
      cases hex : extractJsonV3 (py_strip r) with
      | none => simp [evaluate_with_gemini, tryBody, hk, hex]
      | some g =>
        have hg2 : g.data.take 2 = ['{', '{'] := by
          unfold extractJsonV3 at hex
          cases hc : extract_core_v3 (py_strip r).data with
          | none => rw [hc] at hex; simp at hex
          | some cs2 =>
            rw [hc] at hex
            simp only [Option.map_some', Option.some.injEq] at hex
            subst hex
            exact extract_core_v3_take_two _ _ hc
        simp [evaluate_with_gemini, tryBody, hk, hex, hloads g hg2]

/-- Modelled from the spec (section 4.3, for comparison only — the
source is the authority and contains no clamping code): the claim's
clamping rule, a returned score forced into [0, max_score]. -/
def spec_clamp (s maxScore : ℚ) : ℚ := max 0 (min s maxScore)

/-- A realistic remote response: exactly the single-brace JSON the
snapshot-B prompt requests, carrying the out-of-range Content score
150.  It contains no adjacent pair of open braces, so the double-brace
regex finds no match and the code discards the response wholesale. -/
def c3_service_response : String :=
  "\x7b\"Content\": \x7b\"score\": 150, \"band\": \"80-100\", \"feedback\": \"strong\"\x7d, \"Theory\": \x7b\"score\": 60\x7d, \"Understanding\": \x7b\"score\": 60\x7d, \"Presentation\": \x7b\"score\": 60\x7d\x7d"

set_option maxRecDepth 16384 in
/-- C3 counterexample: when the external service returns the requested
JSON with the out-of-range score 150, the claimed mechanism ("clamps
every score returned by the external service into [0, max_score] before
use") would make the used Content score `spec_clamp 150 100 = 100`; the
program instead discards the response (its extraction regex finds no
match on single-brace JSON) and the used Content score is the fallback
constant 35 ≠ 100 — no clamped service score is ever used, because no
clamping code exists. -/
theorem c3_counterexample_discarded_not_clamped :
    extractJsonV3 (py_strip c3_service_response) = none ∧
    (evaluate_with_gemini (fun _ => none) "key"
        (RemoteCall.returned c3_service_response) "essay").Content.score = 35 ∧
    spec_clamp 150 100 = 100 ∧
    (35 : ℚ) ≠ 100 := by
  refine ⟨by decide, ?_, by norm_num [spec_clamp], by norm_num⟩
  rfl

/-- C3 amended: for every parser satisfying the real `json.loads`
property (it rejects every string beginning with two open braces — and
those are the only strings the extraction can produce), every criterion
score in the evaluation snapshot B's remote scorer returns satisfies
`0 ≤ score ≤ 100` (the rubric's 0-100 scale); but not because of
clamping — no clamping code exists.  The remote success path is
unreachable, so the result is always the fallback evaluation, whose
fixed scores lie within bounds. -/
theorem c3_amended_in_range_without_clamping
    (loads : String → Option ParsedEval)
    (hloads : ∀ s : String, s.data.take 2 = ['{', '{'] → loads s = none)
    (apiKey : String) (remote : RemoteCall) (text : String) :
    evaluate_with_gemini loads apiKey remote text = generate_fallback_evaluation text ∧
    (0 ≤ (evaluate_with_gemini loads apiKey remote text).Content.score ∧
      (evaluate_with_gemini loads apiKey remote text).Content.score ≤ 100) ∧
    (0 ≤ (evaluate_with_gemini loads apiKey remote text).Theory.score ∧
      (evaluate_with_gemini loads apiKey remote text).Theory.score ≤ 100) ∧
    (0 ≤ (evaluate_with_gemini loads apiKey remote text).Understanding.score ∧
      (evaluate_with_gemini loads apiKey remote text).Understanding.score ≤ 100) ∧
    (0 ≤ (evaluate_with_gemini loads apiKey remote text).Presentation.score ∧
      (evaluate_with_gemini loads apiKey remote text).Presentation.score ≤ 100) := by
  have hfb := ewg_always_fallback_v3 loads hloads apiKey remote text
  refine ⟨hfb, ?_⟩
  rw [hfb]
  by_cases h : word_count text < 100 <;>
    simp [generate_fallback_evaluation, h] <;> norm_num

/-- Witness for C3 amended: the concrete parser that refuses everything
(consistent with `json.loads` on the spans this code can hand it), a
configured key and the realistic out-of-range response. -/
theorem c3_amended_in_range_without_clamping_witness :
    evaluate_with_gemini (fun _ => none) "key"
        (RemoteCall.returned c3_service_response) "essay" =
      generate_fallback_evaluation "essay" :=
  (c3_amended_in_range_without_clamping (fun _ => none) (fun _ _ => rfl) "key"
    (RemoteCall.returned c3_service_response) "essay").1

/-! ## C4: fallback determinism -/

/-- C4 (confirmed): the local fallback scorer is a pure function of the
submission text — in fact its output depends only on the word count, so
two invocations with equal word counts (in particular, with identical
text) return identical output, field for field.  The source reads no
clock, no randomness and no external state. -/
theorem c4_fallback_deterministic (t1 t2 : String)
    (h : word_count t1 = word_count t2) :
    generate_fallback_evaluation t1 = generate_fallback_evaluation t2 := by
  simp only [generate_fallback_evaluation, h]

/-- Witness for C4: two distinct two-word texts get identical output. -/
theorem c4_fallback_deterministic_witness :
    word_count "a b" = word_count "cc dd" ∧
    generate_fallback_evaluation "a b" = generate_fallback_evaluation "cc dd" :=
  ⟨by decide, c4_fallback_deterministic "a b" "cc dd" (by decide)⟩

/-! ## C6: JSON extraction from the response text -/

/-- Helper: `first_idx` skips a prefix on which the predicate is false. -/
lemma first_idx_append_of_none (p : Char → Bool) (l1 l2 : List Char)
    (h : ∀ c ∈ l1, p c = false) :
    first_idx p (l1 ++ l2) = (first_idx p l2).map (· + l1.length) := by
  induction l1 with
  | nil => cases hfi : first_idx p l2 <;> simp [hfi]
  | cons a l ih =>
    have ha : p a = false := h a (List.mem_cons_self a l)
    have hrest : ∀ c ∈ l, p c = false := fun c hc => h c (List.mem_cons_of_mem a hc)
    rw [List.cons_append,
      show first_idx p (a :: (l ++ l2)) = (first_idx p (l ++ l2)).map (· + 1) by
        simp [first_idx, ha],
      ih hrest]
    cases hfi : first_idx p l2 <;> simp [Nat.add_assoc]

/-- Helper: `first_idx` stops at an immediate hit. -/
lemma first_idx_cons_pos (p : Char → Bool) (a : Char) (l : List Char) (h : p a = true) :
    first_idx p (a :: l) = some 0 := by simp [first_idx, h]

/-- C6 amended: the code does no code-fence stripping (only whitespace
strip) and extracts the substring from the first open brace to the last
close brace of the whole response (greedy `re.DOTALL` match).  That
substring equals the first well-formed JSON object exactly when no open
brace precedes the object and no close brace follows it; this theorem
proves the extraction correct under those no-stray-brace conditions. -/
theorem c6_amended_first_object_when_no_stray_braces
    (pre obj post : List Char)
    (hpre : '{' ∉ pre) (hpost : '}' ∉ post)
    (hhead : obj.head? = some '{') (hlast : obj.getLast? = some '}')
    (hlen : 2 ≤ obj.length) :
    extract_core (pre ++ obj ++ post) = some obj := by
  have hpre' : ∀ c ∈ pre, (c == '{') = false := fun c hc =>
    beq_eq_false_iff_ne.mpr (fun he => hpre (he ▸ hc))
  have hpost' : ∀ c ∈ post.reverse, (c == '}') = false := fun c hc =>
    beq_eq_false_iff_ne.mpr (fun he => hpost (he ▸ (List.mem_reverse.mp hc)))
  obtain ⟨tl, rfl⟩ : ∃ tl, obj = '{' :: tl := by
    cases hobj : obj with
    | nil => rw [hobj] at hhead; simp at hhead
    | cons c tl =>
      rw [hobj] at hhead
      simp only [List.head?_cons, Option.some.injEq] at hhead
      exact ⟨tl, by rw [hhead]⟩
  obtain ⟨rest, hrev⟩ : ∃ rest, ('{' :: tl).reverse = '}' :: rest := by
    have hh : ('{' :: tl).reverse.head? = some '}' := by
      rw [List.head?_reverse, hlast]
    cases hr : ('{' :: tl).reverse with
    | nil => rw [hr] at hh; simp at hh
    | cons c rest =>
      rw [hr] at hh
      simp only [List.head?_cons, Option.some.injEq] at hh
      exact ⟨rest, by rw [hh]⟩
  have h1 : first_idx (fun c => c == '{') (pre ++ ('{' :: tl) ++ post) = some pre.length := by
    rw [List.append_assoc, first_idx_append_of_none _ _ _ hpre', List.cons_append,
      first_idx_cons_pos _ _ _ (by simp)]
    simp
  have h2 : first_idx (fun c => c == '}') ((pre ++ ('{' :: tl) ++ post).reverse) =
      some post.length := by
    rw [List.reverse_append, List.reverse_append,
      first_idx_append_of_none _ _ _ hpost', hrev, List.cons_append,
      first_idx_cons_pos _ _ _ (by simp)]
    simp
  have hL : (pre ++ ('{' :: tl) ++ post).length =
      pre.length + (tl.length + 1) + post.length := by
    simp only [List.length_append, List.length_cons]
  have h3 : last_idx (fun c => c == '}') (pre ++ ('{' :: tl) ++ post) =
      some (pre.length + tl.length) := by
    rw [last_idx, h2, Option.map_some', hL]
    congr 1
    omega
  have hlt : pre.length < pre.length + tl.length := by
    have hne : tl ≠ [] := by
      intro hnil
      rw [hnil] at hrev
      simp at hrev
    have := List.length_pos.mpr hne
    omega
  simp only [extract_core, h1, h3]
  rw [if_pos hlt]
  rw [List.append_assoc, List.drop_left]
  rw [show pre.length + tl.length - pre.length + 1 = ('{' :: tl).length by simp,
    List.take_left]

/-- Witness for C6 amended on a concrete fenced-free response. -/
theorem c6_amended_witness :
    '{' ∉ "json: ".data ∧ '}' ∉ " end".data ∧
    ("\x7b\"a\": 1\x7d".data).head? = some '{' ∧
    ("\x7b\"a\": 1\x7d".data).getLast? = some '}' ∧
    2 ≤ ("\x7b\"a\": 1\x7d".data).length ∧
    extract_core ("json: ".data ++ "\x7b\"a\": 1\x7d".data ++ " end".data) =
      some ("\x7b\"a\": 1\x7d".data) :=
  ⟨by decide, by decide, by decide, by decide, by decide,
   c6_amended_first_object_when_no_stray_braces _ _ _ (by decide) (by decide) (by decide)
     (by decide) (by decide)⟩

/-- A response containing a well-formed first JSON object followed by
trailing text that includes a close brace. -/
def c6_response : String := "\x7b\"a\": 1\x7d tail\x7d"

/-- C6 counterexample: the response contains the well-formed first
object followed by other text, but the greedy extraction returns the
span up to the *last* close brace, not that first object. -/
theorem c6_counterexample_greedy_overrun :
    extractJson c6_response = some "\x7b\"a\": 1\x7d tail\x7d" ∧
    "\x7b\"a\": 1\x7d tail\x7d" ≠ "\x7b\"a\": 1\x7d" := by decide

/-! ## C7: fallback content scoring is a step function, not linear -/

/-- A forty-word submission. -/
def c7_text : String := String.mk (List.flatten (List.replicate 40 ['w', ' ']))

/-- C7 counterexample: at 40 words the fallback Content score is the
fixed tier value 35, while the claimed linear rule (one point per 40
words, capped at the criterion maximum) would give 1 — the fallback does
not scale linearly with word count. -/
theorem c7_counterexample_step_not_linear :
    word_count c7_text = 40 ∧
    (generate_fallback_evaluation c7_text).Content.score = 35 ∧
    spec_content_score (word_count c7_text) 100 = 1 ∧
    (35 : ℚ) ≠ 1 := by
  refine ⟨by decide, ?_, by decide, by norm_num⟩
  have h : word_count c7_text < 100 := by decide
  simp [generate_fallback_evaluation, h]

/-- C7 amended: the fallback's content-like and understanding-like
scores are a two-tier step function of word count — the fixed value 35
below 100 words and the fixed values 62/64 otherwise — with no linear
scaling and no per-criterion cap. -/
theorem c7_amended_two_tier (t : String) :
    (generate_fallback_evaluation t).Content.score =
      (if word_count t < 100 then (35 : ℚ) else 62) ∧
    (generate_fallback_evaluation t).Understanding.score =
      (if word_count t < 100 then (35 : ℚ) else 64) := by
  by_cases h : word_count t < 100 <;> simp [generate_fallback_evaluation, h]

/-! ## C8: short-input rejection happens before scoring but surfaces as 500 -/

/-- C8 (code bug): a submission whose stripped text is shorter than 50
characters is rejected before any scoring backend runs (second component
`false`) and before any evaluation record exists — but the
`HTTPException(400, ...)` raised by the guard is itself an `Exception`,
so the handler's blanket `except Exception` catches it and re-raises a
*500* server error; the caller never sees the intended client-side 400
status. -/
theorem c8_short_input_rejected_before_scoring (loads : String → Option ParsedEval)
    (apiKey : String) (remote : RemoteCall) (text : String)
    (h : (strip_chars text.data).length < 50) :
    evaluate_assignment loads apiKey remote text =
      (.error ⟨500, str_of_http 400 "Assignment text too short"⟩, false) := by
  have hb : empty_or_invalid text = true := by
    simp [empty_or_invalid, h]
  simp [evaluate_assignment, hb]

/-- Witness for C8 at the two-character submission. -/
theorem c8_short_input_rejected_before_scoring_witness :
    (strip_chars "hi".data).length < 50 ∧
    evaluate_assignment (fun _ => none) "" (RemoteCall.raised "t") "hi" =
      (.error ⟨500, str_of_http 400 "Assignment text too short"⟩, false) :=
  ⟨by decide, c8_short_input_rejected_before_scoring (fun _ => none) "" (RemoteCall.raised "t")
    "hi" (by decide)⟩

/-! ## C9: the validity flag tests only stripped length, not word count -/

/-- C9 amended: the `empty_or_invalid` gate is true exactly when the
stripped text is shorter than 50 characters — there is no word-count
condition in the code — and it is a pure function of the text that alone
decides whether the scoring pipeline runs. -/
theorem c9_amended_length_only_gate (loads : String → Option ParsedEval)
    (apiKey : String) (remote : RemoteCall) (text : String) :
    (empty_or_invalid text = true ↔ (strip_chars text.data).length < 50) ∧
    ((evaluate_assignment loads apiKey remote text).2 = !empty_or_invalid text) := by
  constructor
  · simp [empty_or_invalid]
  · by_cases h : empty_or_invalid text <;> simp [evaluate_assignment, h]

/-- A ten-word, 110-character submission: long enough in characters,
short in words. -/
def c9_text : String :=
  String.mk (List.flatten (List.replicate 10 ['a','a','a','a','a','a','a','a','a','a',' ']))

/-- C9 counterexample: a ten-word text (fewer than the claimed 20-word
threshold) of stripped length at least 50 has `empty_or_invalid = false`
— the claimed word-count disjunct does not exist in the code. -/
theorem c9_counterexample_word_count_ignored :
    word_count c9_text = 10 ∧ 10 < 20 ∧
    50 ≤ (strip_chars c9_text.data).length ∧
    empty_or_invalid c9_text = false := by decide

/-! ## C10: absent API key short-circuits to the fallback -/

/-- C10 (confirmed): with the `GEMINI_API_KEY` environment variable
unset or empty (`os.getenv` default `""`, falsy in the `if not
GEMINI_API_KEY` guard), `evaluate_with_gemini` returns the fallback
immediately for every input.  The statement quantifies over every
possible remote-call outcome and parser behaviour and the result never
depends on them: no prompt is built and no call is attempted. -/
theorem c10_unset_key_always_fallback (loads : String → Option ParsedEval)
    (remote : RemoteCall) (text : String) :
    evaluate_with_gemini loads "" remote text = generate_fallback_evaluation text := rfl
